import Mathlib

set_option autoImplicit false

/-!
Shallow embedding of `app.py` from the cbir-deep-learning repository.

The script builds Elasticsearch-indexable documents from a directory of
CIFAR-10 images: each image is run through a pretrained network whose
forward hook captures an intermediate-layer activation into the module
global `hook_features`, the activation is reduced with a pretrained PCA,
a one-hot label vector parsed from the filename is appended, and the
result is wrapped with identifying metadata.

Numeric feature values are embedded as integers (an abstraction of the float values, which no claim depends on); images, devices and the
network are abstract.  Python exceptions are embedded as `Except PyError`;
the module-global state mutated through the forward hook is threaded
explicitly as `GlobalState`.
-/

/-- Decoded image data (`PIL.Image`), abstracted to an opaque token. -/
abbrev PyImage := Nat

/-- Compute device as selected by `torch.device` (`app.py` line 135). -/
inductive Device where
  | cpu
  | cuda
  deriving DecidableEq, Repr

/-- Python exceptions that the per-file pipeline of `create_docs` can raise. -/
inductive PyError where
  | nameError (name : String)
  | keyError (key : String)
  | imageError (path : String)
  | valueError (msg : String)
  deriving DecidableEq, Repr

/-- The ambient filesystem: directory test (`os.path.isdir`), directory
listing (`os.listdir`) and image decoding (`PIL.Image.open`, `none` when
the file cannot be opened as an image). -/
structure FileSystem where
  isDir : String → Bool
  listdir : String → List String
  readImage : String → Option PyImage

/-- The module-level mutable state of `app.py`: the global `hook_features`
buffer (line 24, overwritten by the forward hook) together with an abstract
token standing for every other module-level binding, used to state frame
properties. -/
structure GlobalState where
  hook_features : List (List ℤ)
  module_rest : Nat
  deriving DecidableEq, Repr

/-- The deep-learning model, abstracted to the map sending one (transformed)
image to the hooked layer's output row for that image. -/
structure Model where
  hookRow : PyImage → List ℤ

/-- A fitted PCA model: the per-feature mean and the component matrix
(one row per retained component). -/
structure PCA where
  mean : List ℤ
  components : List (List ℤ)

/-- The torchvision transform pipeline, abstracted to a map on images. -/
abbrev Transform := PyImage → PyImage

/-- Dot product of two integer vectors. -/
def dotV (xs ys : List ℤ) : ℤ :=
  (List.zipWith (fun a b => a * b) xs ys).sum

/-- Modelled from the spec: `pca.transform` of the scikit-learn PCA model
(a serialized artifact, not in the repository sources; spec 4.3: a
pretrained linear projection to a fixed lower dimensionality).  Each input
row is centered and projected onto every component row; a row whose length
differs from the fitted dimensionality raises a ValueError. -/
def PCA.transform (p : PCA) (X : List (List ℤ)) : Except PyError (List (List ℤ)) :=
  if X.all (fun row => row.length == p.mean.length) then
    Except.ok (X.map fun row =>
      p.components.map fun comp => dotV (List.zipWith (fun a b => a - b) row p.mean) comp)
  else
    Except.error (PyError.valueError "X has a different number of features than the fitted PCA")

/-- Modelled from the spec: `label_to_vector` (imported from `models.utils`,
not in the repository sources; spec 4.4: maps a label string and a
name-to-index mapping to a one-hot vector, and fails when the label is not
in the mapping).  The mapping dictionary is embedded as an association
list; a missing label raises a KeyError. -/
def label_to_vector (label : String) (mapping : List (String × Nat)) : Except PyError (List ℤ) :=
  match mapping.lookup label with
  | none => Except.error (PyError.keyError label)
  | some idx => Except.ok ((List.range mapping.length).map fun i => if i = idx then (1 : ℤ) else 0)

/-- Splitting a list into consecutive chunks of size `bs`, with explicit fuel. -/
def toBatchesAux (bs : Nat) : Nat → List PyImage → List (List PyImage)
  | 0, _ => []
  | _ + 1, [] => []
  | fuel + 1, x :: xs => (x :: xs).take bs :: toBatchesAux bs fuel ((x :: xs).drop bs)

/-- Splitting a list into consecutive chunks of size `bs`, in order. -/
def toBatches (bs : Nat) (xs : List PyImage) : List (List PyImage) :=
  toBatchesAux bs xs.length xs

/-- Modelled from the spec: `ImageDataset` (from `models.image_dataset`, not
in the repository sources) applies the transform to each stored image on
access, and `DataLoader(dataset, batch_size=64, shuffle=False)` (`app.py`
line 71) yields the transformed items in consecutive batches of at most 64,
in order. -/
def make_dataloader (transform : Transform) (dataset : List PyImage) : List (List PyImage) :=
  toBatches 64 (dataset.map transform)

/-- The hook returned by `get_features` (`app.py` lines 99-108): invoked on
a forward pass with the hooked layer's output, it overwrites the module
global `hook_features` with that output and touches nothing else. -/
def get_features_hook (output : List (List ℤ)) (st : GlobalState) : GlobalState :=
  { st with hook_features := output }

/-- Modelled from the spec: `predict` (imported from `models.utils`, not in
the repository sources; spec 4.2: runs each batch of the dataloader through
the network on the given device, and the registered forward hook fires once
per forward pass with the hooked layer's output, one row per image in the
batch). -/
def predict (dataloader : List (List PyImage)) (model : Model) (_dev : Device)
    (st : GlobalState) : GlobalState :=
  dataloader.foldl (fun s batch => get_features_hook (batch.map model.hookRow) s) st

/-- Python `str.find` on a list of characters: index of the first
occurrence, `-1` when absent. -/
def pyFindC (c : Char) : List Char → Int
  | [] => -1
  | x :: xs =>
    if x = c then 0
    else if pyFindC c xs < 0 then -1 else pyFindC c xs + 1

/-- Python `str.find`: index of the first occurrence of `c`, `-1` when absent. -/
def pyFind (s : String) (c : Char) : Int :=
  pyFindC c s.data

/-- Normalization of a Python slice bound for a sequence of length `n`:
negative bounds count from the end and are clamped at `0`, nonnegative
bounds are clamped at `n`. -/
def pyBound (n : Nat) (i : Int) : Nat :=
  if i < 0 then ((n : Int) + i).toNat else min i.toNat n

/-- Python slice `s[a:b]` on a list of characters. -/
def pySliceC (s : List Char) (a b : Int) : List Char :=
  (s.drop (pyBound s.length a)).take (pyBound s.length b - pyBound s.length a)

/-- Python slice `s[a:b]` on strings. -/
def pyStrSlice (s : String) (a b : Int) : String :=
  String.mk (pySliceC s.data a b)

/-- `os.path.join(directory, file)` for a directory path and a plain
file name. -/
def os_join (d f : String) : String :=
  d ++ "/" ++ f

/-- The document id slice `file[0 : file.find(Char.ofNat 45)]`
(`app.py` line 89). -/
def parse_id (file : String) : String :=
  pyStrSlice file 0 (pyFind file '-')

/-- The label slice `file[file.find(Char.ofNat 45) + 1 : file.find(Char.ofNat 46)]`
(`app.py` line 81). -/
def parse_label (file : String) : String :=
  pyStrSlice file (pyFind file '-' + 1) (pyFind file '.')

/-- An Elasticsearch-indexable image document (`app.py` lines 88-93). -/
structure Doc where
  id : String
  filename : String
  path : String
  features : List ℤ
  deriving DecidableEq, Repr

/-- One iteration of the loop body of `create_docs` (`app.py` lines 63-94):
open the image, build the single-image dataset and dataloader, run the
forward pass (the hook fills `hook_features`), read the buffer, reduce with
PCA, parse the label, one-hot encode it, concatenate, and build the
document.  The free module-global name `device` read at the `predict` call
(line 74) is embedded as `de : Option Device`; when it is unbound the call
raises a NameError. -/
def process_file (fs : FileSystem) (de : Option Device) (directory : String)
    (m : Model) (p : PCA) (t : Transform) (mp : List (String × Nat))
    (file : String) (st : GlobalState) : Except PyError (Doc × Nat × GlobalState) :=
  match fs.readImage (os_join directory file) with
  | none => Except.error (PyError.imageError (os_join directory file))
  | some image =>
    match de with
    | none => Except.error (PyError.nameError "device")
    | some dev =>
      match p.transform (predict (make_dataloader t [image]) m dev st).hook_features with
      | Except.error e => Except.error e
      | Except.ok embedding =>
        match label_to_vector (parse_label file) mp with
        | Except.error e => Except.error e
        | Except.ok label_vec =>
          Except.ok ({ id := parse_id file, filename := file,
                       path := os_join directory file,
                       features := embedding.flatten ++ label_vec },
                     (embedding.flatten ++ label_vec).length,
                     predict (make_dataloader t [image]) m dev st)

/-- The loop of `create_docs` (`app.py` lines 61-94): one document appended
per listed file, `num_features` reassigned on every iteration, any
exception propagating. -/
def docs_loop (fs : FileSystem) (de : Option Device) (directory : String)
    (m : Model) (p : PCA) (t : Transform) (mp : List (String × Nat)) :
    List String → Nat → GlobalState → Except PyError (List Doc × Nat × GlobalState)
  | [], num_features, st => Except.ok ([], num_features, st)
  | file :: rest, _, st =>
    match process_file fs de directory m p t mp file st with
    | Except.error e => Except.error e
    | Except.ok (doc, nf1, st1) =>
      match docs_loop fs de directory m p t mp rest nf1 st1 with
      | Except.error e => Except.error e
      | Except.ok (docs, nf2, st2) => Except.ok (doc :: docs, nf2, st2)

/-- `create_docs` (`app.py` lines 27-96): three precondition checks each
returning the sentinel `(None, 0)`, then the per-file loop over
`os.listdir(directory)` starting from `num_features = 0`. -/
def create_docs (fs : FileSystem) (de : Option Device) (st : GlobalState)
    (directory : String) (model : Option Model) (pca : Option PCA)
    (t : Transform) (mp : List (String × Nat)) :
    Except PyError (Option (List Doc) × Nat × GlobalState) :=
  if fs.isDir directory = false then
    Except.ok (none, 0, st)
  else
    match model with
    | none => Except.ok (none, 0, st)
    | some m =>
      match pca with
      | none => Except.ok (none, 0, st)
      | some p =>
        match docs_loop fs de directory m p t mp (fs.listdir directory) 0 st with
        | Except.error e => Except.error e
        | Except.ok (docs, num_features, st1) => Except.ok (some docs, num_features, st1)

/-- The check the `__main__` block performs on the result of `create_docs`
(`app.py` lines 163-166): `some 1` means the process exits via
`sys.exit(1)`, `none` means execution continues. -/
def main_exit (images : Option (List Doc)) (num_features : Nat) : Option Nat :=
  if images.isNone || num_features == 0 then some 1 else none

/-- Whether an embedded Python outcome is a NameError. -/
def isNameError {α : Type} : Except PyError α → Bool
  | Except.error (PyError.nameError _) => true
  | _ => false

/-! ### Concrete instances, used to instantiate the theorems below -/

/-- The initial module state: `hook_features = []` (`app.py` line 24). -/
def gs0 : GlobalState := { hook_features := [], module_rest := 0 }

/-- A filesystem on which every directory check fails. -/
def fsNoDir : FileSystem :=
  { isDir := fun _ => false, listdir := fun _ => [], readImage := fun _ => none }

/-- A filesystem with valid directories that are all empty. -/
def fsEmptyDir : FileSystem :=
  { isDir := fun _ => true, listdir := fun _ => [], readImage := fun _ => none }

/-- A filesystem with one valid directory listing one readable image file. -/
def fsOne : FileSystem :=
  { isDir := fun _ => true, listdir := fun _ => ["3-cat.png"], readImage := fun _ => some 0 }

/-- A filesystem listing one file that has no dash and no dot in its name. -/
def fsNoDash : FileSystem :=
  { isDir := fun _ => true, listdir := fun _ => ["3catpng"], readImage := fun _ => some 0 }

/-- A filesystem whose single listed file cannot be opened as an image. -/
def fsBadImage : FileSystem :=
  { isDir := fun _ => true, listdir := fun _ => ["3-cat.png"], readImage := fun _ => none }

/-- A network whose hooked layer has width two. -/
def modelX : Model := { hookRow := fun _ => [1, 2] }

/-- A PCA fitted on two features, reducing to one component. -/
def pcaX : PCA := { mean := [0, 0], components := [[1, 0]] }

/-- A one-class label mapping. -/
def mappingX : List (String × Nat) := [("cat", 0)]

/-- A one-class label mapping whose only label is a degenerate slice. -/
def mappingY : List (String × Nat) := [("3catpn", 0)]

/-- The module state after one forward pass of `modelX`. -/
def gsX : GlobalState := { hook_features := [[1, 2]], module_rest := 0 }

/-- The document built for `3-cat.png` under `fsOne`, `modelX`, `pcaX`, `mappingX`. -/
def docX : Doc :=
  { id := "3", filename := "3-cat.png", path := "d/3-cat.png", features := [1, 1] }

/-- The document built for `3catpng` under `fsNoDash`, `modelX`, `pcaX`, `mappingY`. -/
def docY : Doc :=
  { id := "3catpn", filename := "3catpng", path := "d/3catpng", features := [1, 1] }

/-! ### Helper lemmas -/

theorem predict_singleton (t : Transform) (img : PyImage) (m : Model) (dev : Device)
    (st : GlobalState) :
    predict (make_dataloader t [img]) m dev st = get_features_hook [m.hookRow (t img)] st := rfl

theorem get_features_hook_features (output : List (List ℤ)) (st : GlobalState) :
    (get_features_hook output st).hook_features = output := rfl

theorem get_features_hook_rest (output : List (List ℤ)) (st : GlobalState) :
    (get_features_hook output st).module_rest = st.module_rest := rfl

theorem label_to_vector_length {label : String} {mp : List (String × Nat)} {v : List ℤ}
    (h : label_to_vector label mp = Except.ok v) : v.length = mp.length := by
  unfold label_to_vector at h
  cases hl : mp.lookup label with
  | none => rw [hl] at h; exact Except.noConfusion h
  | some idx =>
    rw [hl] at h
    injection h with h
    subst h
    simp

theorem transform_singleton {p : PCA} {row : List ℤ} {red : List (List ℤ)}
    (h : PCA.transform p [row] = Except.ok red) :
    red = [p.components.map fun comp =>
      dotV (List.zipWith (fun a b => a - b) row p.mean) comp] := by
  unfold PCA.transform at h
  split at h
  · injection h with h
    exact h.symm
  · exact Except.noConfusion h

theorem process_file_inv {fs : FileSystem} {de : Option Device} {dir : String}
    {m : Model} {p : PCA} {t : Transform} {mp : List (String × Nat)}
    {f : String} {st : GlobalState} {doc : Doc} {nf : Nat} {st1 : GlobalState}
    (h : process_file fs de dir m p t mp f st = Except.ok (doc, nf, st1)) :
    ∃ img dev red lab,
      fs.readImage (os_join dir f) = some img ∧
      de = some dev ∧
      st1 = get_features_hook [m.hookRow (t img)] st ∧
      PCA.transform p [m.hookRow (t img)] = Except.ok red ∧
      label_to_vector (parse_label f) mp = Except.ok lab ∧
      doc = { id := parse_id f, filename := f, path := os_join dir f,
              features := red.flatten ++ lab } ∧
      nf = (red.flatten ++ lab).length := by
  unfold process_file at h
  split at h
  next himg => exact Except.noConfusion h
  next img himg =>
    split at h
    next => exact Except.noConfusion h
    next odev dev =>
      split at h
      next e hred => exact Except.noConfusion h
      next red hred =>
        split at h
        next e hlab => exact Except.noConfusion h
        next lab hlab =>
          injection h with h
          simp only [Prod.mk.injEq] at h
          exact ⟨img, dev, red, lab, himg, rfl, h.2.2.symm, hred, hlab,
            h.1.symm, h.2.1.symm⟩

theorem docs_loop_inv {fs : FileSystem} {de : Option Device} {dir : String}
    {m : Model} {p : PCA} {t : Transform} {mp : List (String × Nat)} :
    ∀ (lst : List String) (nf0 : Nat) (st : GlobalState) (docs : List Doc) (nf : Nat)
      (st1 : GlobalState),
    docs_loop fs de dir m p t mp lst nf0 st = Except.ok (docs, nf, st1) →
    docs.map (fun d => d.filename) = lst ∧
    (∀ d ∈ docs, ∃ emb lab, d.features = emb ++ lab ∧
        emb.length = p.components.length ∧ lab.length = mp.length) ∧
    (docs = [] → nf = nf0) ∧
    (docs ≠ [] → nf = p.components.length + mp.length) ∧
    st1.module_rest = st.module_rest := by
  intro lst
  induction lst with
  | nil =>
    intro nf0 st docs nf st1 h
    unfold docs_loop at h
    injection h with h
    simp only [Prod.mk.injEq] at h
    obtain ⟨h1, h2, h3⟩ := h
    subst h1
    subst h2
    subst h3
    refine ⟨rfl, ?_, fun _ => rfl, fun hne => absurd rfl hne, rfl⟩
    intro d hd
    exact absurd hd (List.not_mem_nil d)
  | cons f rest ih =>
    intro nf0 st docs nf st1 h
    unfold docs_loop at h
    split at h
    next e hpf => exact Except.noConfusion h
    next doc1 nf1 st2 hpf =>
      split at h
      next e hrec => exact Except.noConfusion h
      next docs2 nf2 st3 hrec =>
        injection h with h
        simp only [Prod.mk.injEq] at h
        obtain ⟨h1, h2, h3⟩ := h
        subst h1
        subst h2
        subst h3
        obtain ⟨img, dev, red, lab, himg, hde, hst2, hred, hlab, hdoc, hnf1⟩ :=
          process_file_inv hpf
        obtain ⟨ihmap, ihfeat, ihnil, ihne, ihrest⟩ := ih nf1 st2 docs2 nf2 st3 hrec
        have hrow := transform_singleton hred
        have hfeat1 : doc1.features = red.flatten ++ lab ∧
            red.flatten.length = p.components.length ∧ lab.length = mp.length := by
          refine ⟨by rw [hdoc], ?_, label_to_vector_length hlab⟩
          rw [hrow]
          simp
        refine ⟨?_, ?_, ?_, ?_, ?_⟩
        · simp only [List.map_cons, ihmap]
          rw [hdoc]
        · intro d hd
          rcases List.mem_cons.mp hd with hd1 | hd2
          · subst hd1
            exact ⟨red.flatten, lab, hfeat1⟩
          · exact ihfeat d hd2
        · intro hcontra
          exact absurd hcontra (List.cons_ne_nil doc1 docs2)
        · intro _
          rcases List.eq_nil_or_concat docs2 with hnil2 | _
          · rw [ihnil hnil2, hnf1, List.length_append, hfeat1.2.1, hfeat1.2.2]
          · rcases h2 : docs2 with _ | _
            · rw [ihnil h2, hnf1, List.length_append, hfeat1.2.1, hfeat1.2.2]
            · exact ihne (by simp [h2])
        · rw [ihrest, hst2]
          rfl

theorem create_docs_not_dir {fs : FileSystem} {de : Option Device} {st : GlobalState}
    {dir : String} {model : Option Model} {pca : Option PCA} {t : Transform}
    {mp : List (String × Nat)} (hdir : fs.isDir dir = false) :
    create_docs fs de st dir model pca t mp = Except.ok (none, 0, st) := by
  unfold create_docs
  rw [hdir]
  rfl

theorem create_docs_model_none {fs : FileSystem} {de : Option Device} {st : GlobalState}
    {dir : String} {pca : Option PCA} {t : Transform} {mp : List (String × Nat)} :
    create_docs fs de st dir none pca t mp = Except.ok (none, 0, st) := by
  unfold create_docs
  cases h : fs.isDir dir <;> rfl

theorem create_docs_pca_none {fs : FileSystem} {de : Option Device} {st : GlobalState}
    {dir : String} {model : Option Model} {t : Transform} {mp : List (String × Nat)} :
    create_docs fs de st dir model none t mp = Except.ok (none, 0, st) := by
  unfold create_docs
  cases h : fs.isDir dir
  · rfl
  · cases model <;> rfl

theorem create_docs_eq_loop {fs : FileSystem} {de : Option Device} {st : GlobalState}
    {dir : String} {m : Model} {p : PCA} {t : Transform} {mp : List (String × Nat)}
    (hdir : fs.isDir dir = true) :
    create_docs fs de st dir (some m) (some p) t mp =
      match docs_loop fs de dir m p t mp (fs.listdir dir) 0 st with
      | Except.error e => Except.error e
      | Except.ok (docs, n, st1) => Except.ok (some docs, n, st1) := by
  unfold create_docs
  rw [hdir]
  rfl

theorem create_docs_ok_inv {fs : FileSystem} {de : Option Device} {st : GlobalState}
    {dir : String} {m : Model} {p : PCA} {t : Transform} {mp : List (String × Nat)}
    {docs : List Doc} {nf : Nat} {st1 : GlobalState}
    (h : create_docs fs de st dir (some m) (some p) t mp = Except.ok (some docs, nf, st1)) :
    fs.isDir dir = true ∧
    docs_loop fs de dir m p t mp (fs.listdir dir) 0 st = Except.ok (docs, nf, st1) := by
  cases hdir : fs.isDir dir with
  | false =>
    rw [create_docs_not_dir hdir] at h
    injection h with h
    simp only [Prod.mk.injEq] at h
    exact absurd h.1 (by simp)
  | true =>
    refine ⟨rfl, ?_⟩
    rw [create_docs_eq_loop hdir] at h
    split at h
    next e hrec => exact Except.noConfusion h
    next docs2 n2 st2 hrec =>
      injection h with h
      simp only [Prod.mk.injEq, Option.some.injEq] at h
      obtain ⟨h1, h2, h3⟩ := h
      subst h1
      subst h2
      subst h3
      exact hrec

theorem data_mk (l : List Char) : (String.mk l).data = l := rfl

theorem pyFindC_of_not_mem {c : Char} {l : List Char} (h : c ∉ l) : pyFindC c l = -1 := by
  induction l with
  | nil => rfl
  | cons x xs ih =>
    have hx : ¬ x = c := by intro hc; exact h (by simp [hc])
    have hxs : c ∉ xs := by intro hc; exact h (List.mem_cons_of_mem x hc)
    unfold pyFindC
    rw [if_neg hx, ih hxs]
    norm_num

theorem pyFindC_append {c : Char} {l1 l2 : List Char} (h : c ∉ l1) :
    pyFindC c (l1 ++ c :: l2) = (l1.length : Int) := by
  induction l1 with
  | nil =>
    simp only [List.nil_append, List.length_nil, Nat.cast_zero]
    unfold pyFindC
    rw [if_pos rfl]
  | cons x xs ih =>
    have hx : ¬ x = c := by intro hc; exact h (by simp [hc])
    have hxs : c ∉ xs := by intro hc; exact h (List.mem_cons_of_mem x hc)
    rw [List.cons_append]
    unfold pyFindC
    rw [if_neg hx, ih hxs, if_neg (Int.not_lt.mpr (Int.natCast_nonneg xs.length))]
    simp only [List.length_cons]
    push_cast
    ring

theorem pyBound_zero (n : Nat) : pyBound n 0 = 0 := by
  unfold pyBound
  simp

theorem pyBound_natCast {n k : Nat} (hk : k ≤ n) : pyBound n (k : Int) = k := by
  unfold pyBound
  rw [if_neg (Int.not_lt.mpr (Int.natCast_nonneg k)), Int.toNat_natCast]
  exact min_eq_left hk

theorem pyBound_neg_one (n : Nat) : pyBound n (-1) = n - 1 := by
  unfold pyBound
  rw [if_pos (by norm_num)]
  omega

theorem pySliceC_zero_natCast {s : List Char} {k : Nat} (hk : k ≤ s.length) :
    pySliceC s 0 (k : Int) = s.take k := by
  unfold pySliceC
  rw [pyBound_zero, pyBound_natCast hk]
  simp

theorem pySliceC_natCast {s : List Char} {a b : Nat} (ha : a ≤ s.length) (hb : b ≤ s.length) :
    pySliceC s (a : Int) (b : Int) = (s.drop a).take (b - a) := by
  unfold pySliceC
  rw [pyBound_natCast ha, pyBound_natCast hb]

theorem pySliceC_zero_neg_one (s : List Char) : pySliceC s 0 (-1) = s.dropLast := by
  unfold pySliceC
  rw [pyBound_zero, pyBound_neg_one, List.drop_zero, Nat.sub_zero,
    ← List.dropLast_eq_take]

theorem parse_id_of_form {idc labc extc : List Char} (hid : ('-') ∉ idc) :
    parse_id (String.mk (idc ++ '-' :: (labc ++ '.' :: extc))) = String.mk idc := by
  unfold parse_id pyStrSlice pyFind
  rw [data_mk, pyFindC_append hid, pySliceC_zero_natCast (by simp), List.take_left]

theorem parse_label_of_form {idc labc extc : List Char}
    (hid1 : ('-') ∉ idc) (hid2 : ('.') ∉ idc) (hlab : ('.') ∉ labc) :
    parse_label (String.mk (idc ++ '-' :: (labc ++ '.' :: extc))) = String.mk labc := by
  unfold parse_label pyStrSlice pyFind
  rw [data_mk, pyFindC_append hid1]
  have hmem : ('.') ∉ idc ++ '-' :: labc := by
    simp only [List.mem_append, List.mem_cons]
    push_neg
    exact ⟨hid2, by decide, hlab⟩
  have hL : idc ++ '-' :: (labc ++ '.' :: extc) = (idc ++ '-' :: labc) ++ '.' :: extc := by
    simp
  rw [hL, pyFindC_append hmem]
  have hcast : (idc.length : Int) + 1 = ((idc.length + 1 : Nat) : Int) := by push_cast; ring
  rw [hcast, pySliceC_natCast (by simp) (by simp)]
  have htake : (idc ++ '-' :: labc).length - (idc.length + 1) = labc.length := by
    simp only [List.length_append, List.length_cons]
    omega
  rw [htake]
  have hL2 : (idc ++ '-' :: labc) ++ '.' :: extc = (idc ++ ['-']) ++ (labc ++ '.' :: extc) := by
    simp
  have hlen : idc.length + 1 = (idc ++ ['-']).length := by simp
  rw [hL2, hlen, List.drop_left, List.take_left]

theorem parse_id_no_dash {f : String} (h : ('-') ∉ f.data) :
    parse_id f = String.mk f.data.dropLast := by
  unfold parse_id pyStrSlice pyFind
  rw [pyFindC_of_not_mem h, pySliceC_zero_neg_one]

theorem parse_label_no_dash_no_dot {f : String} (h1 : ('-') ∉ f.data) (h2 : ('.') ∉ f.data) :
    parse_label f = String.mk f.data.dropLast := by
  unfold parse_label pyStrSlice pyFind
  rw [pyFindC_of_not_mem h1, pyFindC_of_not_mem h2]
  norm_num
  rw [pySliceC_zero_neg_one]

/-! ### Claim theorems -/

/-- Claim C1: when the directory argument is not an existing directory, or the
model argument is None, or the PCA argument is None, `create_docs` returns the
sentinel pair `(None, 0)` with the module state untouched (no file processed),
and the main entrypoint, receiving this sentinel, exits the process with the
non-zero status 1. -/
theorem create_docs_sentinel_on_bad_precondition (fs : FileSystem) (de : Option Device)
    (st : GlobalState) (dir : String) (model : Option Model) (pca : Option PCA)
    (t : Transform) (mp : List (String × Nat))
    (h : fs.isDir dir = false ∨ model = none ∨ pca = none) :
    create_docs fs de st dir model pca t mp = Except.ok (none, 0, st) ∧
    main_exit none 0 = some 1 := by
  refine ⟨?_, rfl⟩
  rcases h with h | h | h
  · exact create_docs_not_dir h
  · subst h
    exact create_docs_model_none
  · subst h
    exact create_docs_pca_none

/-- Claim C1 witness: the missing-directory case at concrete arguments. -/
theorem create_docs_sentinel_on_bad_precondition_witness :
    create_docs fsNoDir none gs0 "static/cifar10/train" none none id [] =
      Except.ok (none, 0, gs0) ∧
    main_exit none 0 = some 1 :=
  create_docs_sentinel_on_bad_precondition fsNoDir none gs0 "static/cifar10/train"
    none none id [] (Or.inl rfl)

/-- Claim C2: for every valid directory and non-None model and PCA, assuming every
per-file step succeeds (so `create_docs` returns a document list), the returned
list has exactly one document per listed file, in directory-listing order, and
its length equals the number of entries listed in the directory. -/
theorem create_docs_one_doc_per_listed_file (fs : FileSystem) (de : Option Device)
    (st : GlobalState) (dir : String) (m : Model) (p : PCA) (t : Transform)
    (mp : List (String × Nat)) (docs : List Doc) (nf : Nat) (st1 : GlobalState)
    (_hdir : fs.isDir dir = true)
    (h : create_docs fs de st dir (some m) (some p) t mp = Except.ok (some docs, nf, st1)) :
    docs.length = (fs.listdir dir).length ∧
    docs.map (fun d => d.filename) = fs.listdir dir := by
  obtain ⟨-, hloop⟩ := create_docs_ok_inv h
  obtain ⟨hmap, -, -, -, -⟩ := docs_loop_inv (fs.listdir dir) 0 st docs nf st1 hloop
  refine ⟨?_, hmap⟩
  rw [← hmap]
  simp

/-- Claim C2 witness: one listed file, one document, at concrete arguments. -/
theorem create_docs_one_doc_per_listed_file_witness :
    [docX].length = (fsOne.listdir "d").length ∧
    [docX].map (fun d => d.filename) = fsOne.listdir "d" :=
  create_docs_one_doc_per_listed_file fsOne (some Device.cpu) gs0 "d" modelX pcaX id
    mappingX [docX] 2 gsX rfl rfl

/-- Claim C3 (amended): every document returned by `create_docs` has a features
field that is the concatenation of a PCA-reduced embedding of length equal to the
number of PCA components and a one-hot label vector of length equal to the number
of classes in the mapping, so each feature length is their sum; and whenever at
least one document is produced, the second returned component equals that sum. -/
theorem create_docs_feature_vector_length (fs : FileSystem) (de : Option Device)
    (st : GlobalState) (dir : String) (m : Model) (p : PCA) (t : Transform)
    (mp : List (String × Nat)) (docs : List Doc) (nf : Nat) (st1 : GlobalState)
    (h : create_docs fs de st dir (some m) (some p) t mp = Except.ok (some docs, nf, st1)) :
    (∀ d ∈ docs, ∃ emb lab, d.features = emb ++ lab ∧
        emb.length = p.components.length ∧ lab.length = mp.length ∧
        d.features.length = p.components.length + mp.length) ∧
    (docs ≠ [] → nf = p.components.length + mp.length) := by
  obtain ⟨-, hloop⟩ := create_docs_ok_inv h
  obtain ⟨-, hfeat, -, hne, -⟩ := docs_loop_inv (fs.listdir dir) 0 st docs nf st1 hloop
  refine ⟨?_, hne⟩
  intro d hd
  obtain ⟨emb, lab, h1, h2, h3⟩ := hfeat d hd
  exact ⟨emb, lab, h1, h2, h3, by rw [h1, List.length_append, h2, h3]⟩

/-- Claim C3 witness: one component plus one class gives feature length two. -/
theorem create_docs_feature_vector_length_witness :
    (∀ d ∈ [docX], ∃ emb lab, d.features = emb ++ lab ∧
        emb.length = pcaX.components.length ∧ lab.length = mappingX.length ∧
        d.features.length = pcaX.components.length + mappingX.length) ∧
    ([docX] ≠ [] → 2 = pcaX.components.length + mappingX.length) :=
  create_docs_feature_vector_length fsOne (some Device.cpu) gs0 "d" modelX pcaX id
    mappingX [docX] 2 gsX rfl

/-- Claim C3 counterexample: on a valid but empty directory `create_docs`
succeeds with second component 0, while the PCA dimensionality plus the number
of classes is 2, so the second component does not always equal that length. -/
theorem create_docs_num_features_zero_cex :
    create_docs fsEmptyDir (some Device.cpu) gs0 "d" (some modelX) (some pcaX) id mappingX =
      Except.ok (some [], 0, gs0) ∧
    pcaX.components.length + mappingX.length = 2 ∧ (0 : Nat) ≠ 2 :=
  ⟨rfl, rfl, by decide⟩

/-- Claim C4: for every processed filename of the form id-label.ext (id free of
dashes and dots, label free of dots), the produced document has id equal to the
substring before the first dash, the label string used for one-hot encoding is
the substring between the first dash and the first dot, filename is the full
file name, and path is the directory joined with the file name. -/
theorem doc_fields_from_filename (fs : FileSystem) (de : Option Device) (dir : String)
    (m : Model) (p : PCA) (t : Transform) (mp : List (String × Nat))
    (st : GlobalState) (doc : Doc) (nf : Nat) (st1 : GlobalState)
    (idc labc extc : List Char)
    (hid1 : ('-') ∉ idc) (hid2 : ('.') ∉ idc) (hlab : ('.') ∉ labc)
    (h : process_file fs de dir m p t mp (String.mk (idc ++ '-' :: (labc ++ '.' :: extc))) st
          = Except.ok (doc, nf, st1)) :
    doc.id = String.mk idc ∧
    parse_label (String.mk (idc ++ '-' :: (labc ++ '.' :: extc))) = String.mk labc ∧
    (∃ lab, label_to_vector (String.mk labc) mp = Except.ok lab) ∧
    doc.filename = String.mk (idc ++ '-' :: (labc ++ '.' :: extc)) ∧
    doc.path = os_join dir (String.mk (idc ++ '-' :: (labc ++ '.' :: extc))) := by
  obtain ⟨img, dev, red, lab, himg, hde, hst, hred, hlab2, hdoc, hnf⟩ := process_file_inv h
  subst hdoc
  refine ⟨parse_id_of_form hid1, parse_label_of_form hid1 hid2 hlab, ⟨lab, ?_⟩, rfl, rfl⟩
  rw [← parse_label_of_form hid1 hid2 hlab]
  exact hlab2

/-- Claim C4 witness: the file 3-cat.png parses into id 3 and label cat. -/
theorem doc_fields_from_filename_witness :
    docX.id = String.mk ['3'] ∧
    parse_label (String.mk (['3'] ++ '-' :: (['c', 'a', 't'] ++ '.' :: ['p', 'n', 'g']))) =
      String.mk ['c', 'a', 't'] ∧
    (∃ lab, label_to_vector (String.mk ['c', 'a', 't']) mappingX = Except.ok lab) ∧
    docX.filename = String.mk (['3'] ++ '-' :: (['c', 'a', 't'] ++ '.' :: ['p', 'n', 'g'])) ∧
    docX.path = os_join "d" (String.mk (['3'] ++ '-' :: (['c', 'a', 't'] ++ '.' :: ['p', 'n', 'g']))) :=
  doc_fields_from_filename fsOne (some Device.cpu) "d" modelX pcaX id mappingX gs0
    docX 2 gsX ['3'] ['c', 'a', 't'] ['p', 'n', 'g'] (by decide) (by decide) (by decide) rfl

/-- Claim C5: `create_docs` installs no exception handling around the per-file
steps: once the three precondition checks pass, any exception raised while
processing the files (unreadable image, label absent from the mapping, PCA shape
mismatch) propagates unchanged to the caller instead of being converted to the
`(None, 0)` sentinel or any other defined value. -/
theorem create_docs_propagates_errors (fs : FileSystem) (de : Option Device)
    (st : GlobalState) (dir : String) (m : Model) (p : PCA) (t : Transform)
    (mp : List (String × Nat)) (e : PyError)
    (hdir : fs.isDir dir = true)
    (h : docs_loop fs de dir m p t mp (fs.listdir dir) 0 st = Except.error e) :
    create_docs fs de st dir (some m) (some p) t mp = Except.error e := by
  rw [create_docs_eq_loop hdir, h]

/-- Claim C5 witness: an unreadable image makes `create_docs` raise the same
ImageError its loop raised, not the sentinel. -/
theorem create_docs_propagates_errors_witness :
    create_docs fsBadImage (some Device.cpu) gs0 "d" (some modelX) (some pcaX) id mappingX =
      Except.error (PyError.imageError (os_join "d" "3-cat.png")) :=
  create_docs_propagates_errors fsBadImage (some Device.cpu) gs0 "d" modelX pcaX id
    mappingX (PyError.imageError (os_join "d" "3-cat.png")) rfl rfl

/-- Claim C6: the forward hook overwrites the single process-global
`hook_features` buffer with the hooked-layer output, and `create_docs` consumes
the buffer immediately after each predict call, so under sequential single-image
processing the embedding reduced for a file is exactly the hooked-layer output of
the forward pass on that same file, and the hook buffer is the only module-level
state the iteration mutates. -/
theorem hook_buffer_per_file (fs : FileSystem) (de : Option Device) (dir : String)
    (m : Model) (p : PCA) (t : Transform) (mp : List (String × Nat)) (f : String)
    (st : GlobalState) (doc : Doc) (nf : Nat) (st1 : GlobalState) (img : PyImage)
    (himg : fs.readImage (os_join dir f) = some img)
    (h : process_file fs de dir m p t mp f st = Except.ok (doc, nf, st1)) :
    st1.hook_features = [m.hookRow (t img)] ∧
    st1.module_rest = st.module_rest ∧
    ∃ red lab, PCA.transform p [m.hookRow (t img)] = Except.ok red ∧
      label_to_vector (parse_label f) mp = Except.ok lab ∧
      doc.features = red.flatten ++ lab := by
  obtain ⟨img2, dev, red, lab, himg2, hde, hst, hred, hlab, hdoc, hnf⟩ := process_file_inv h
  rw [himg] at himg2
  injection himg2 with himg2
  subst himg2
  refine ⟨?_, ?_, red, lab, hred, hlab, by rw [hdoc]⟩
  · rw [hst, get_features_hook_features]
  · rw [hst, get_features_hook_rest]

/-- Claim C6 witness: the buffer after processing 3-cat.png holds exactly the
hooked output row of its own forward pass. -/
theorem hook_buffer_per_file_witness :
    gsX.hook_features = [modelX.hookRow (id 0)] ∧
    gsX.module_rest = gs0.module_rest ∧
    ∃ red lab, PCA.transform pcaX [modelX.hookRow (id 0)] = Except.ok red ∧
      label_to_vector (parse_label "3-cat.png") mappingX = Except.ok lab ∧
      docX.features = red.flatten ++ lab :=
  hook_buffer_per_file fsOne (some Device.cpu) "d" modelX pcaX id mappingX "3-cat.png"
    gs0 docX 2 gsX 0 rfl rfl

/-- Claim C7: in every iteration of the loop of `create_docs`, the dataloader is
built over a dataset holding exactly one image, so it consists of exactly one
batch holding exactly that image despite the configured batch size of 64, and
the predict call performs exactly one forward pass over that single image;
images are never batched together. -/
theorem single_image_batches (t : Transform) (img : PyImage) (m : Model) (dev : Device)
    (st : GlobalState) :
    make_dataloader t [img] = [[t img]] ∧
    predict (make_dataloader t [img]) m dev st = get_features_hook [m.hookRow (t img)] st :=
  ⟨rfl, rfl⟩

/-- Claim C8: for a valid, existing but empty directory, `create_docs` returns
the pair `([], 0)` (the per-iteration reassignment of the count never runs), a
count indistinguishable from the precondition-failure sentinel, so the main
entrypoint exits with status 1 even though no precondition failed. -/
theorem create_docs_empty_dir_exits (fs : FileSystem) (de : Option Device)
    (st : GlobalState) (dir : String) (m : Model) (p : PCA) (t : Transform)
    (mp : List (String × Nat))
    (hdir : fs.isDir dir = true) (hls : fs.listdir dir = []) :
    create_docs fs de st dir (some m) (some p) t mp = Except.ok (some [], 0, st) ∧
    main_exit (some []) 0 = main_exit none 0 ∧
    main_exit (some []) 0 = some 1 := by
  refine ⟨?_, rfl, rfl⟩
  rw [create_docs_eq_loop hdir, hls]
  rfl

/-- Claim C8 witness: the empty-directory case at concrete arguments. -/
theorem create_docs_empty_dir_exits_witness :
    create_docs fsEmptyDir (some Device.cpu) gs0 "static/cifar10/train" (some modelX)
      (some pcaX) id mappingX = Except.ok (some [], 0, gs0) ∧
    main_exit (some []) 0 = main_exit none 0 ∧
    main_exit (some []) 0 = some 1 :=
  create_docs_empty_dir_exits fsEmptyDir (some Device.cpu) gs0 "static/cifar10/train"
    modelX pcaX id mappingX rfl rfl

/-- Claim C9: filename parsing is total and never raises: a filename with no dash
still yields its document when the remaining steps succeed, with the degenerate
id equal to the filename minus its last character (the slice ending at find =
-1), and with the label slice equally degenerate when a dot is absent too,
rather than a parse error being signalled. -/
theorem degenerate_filename_still_processed (fs : FileSystem) (de : Option Device)
    (dir : String) (m : Model) (p : PCA) (t : Transform) (mp : List (String × Nat))
    (st : GlobalState) (f : String) (doc : Doc) (nf : Nat) (st1 : GlobalState)
    (hnd : ('-') ∉ f.data)
    (h : process_file fs de dir m p t mp f st = Except.ok (doc, nf, st1)) :
    doc.id = String.mk f.data.dropLast ∧
    (('.') ∉ f.data → parse_label f = String.mk f.data.dropLast) := by
  obtain ⟨img, dev, red, lab, himg, hde, hst, hred, hlab, hdoc, hnf⟩ := process_file_inv h
  subst hdoc
  exact ⟨parse_id_no_dash hnd, fun hdot => parse_label_no_dash_no_dot hnd hdot⟩

/-- Claim C9 witness: the dashless, dotless file 3catpng still yields a document,
with id and label slice both the name minus its final character. -/
theorem degenerate_filename_still_processed_witness :
    docY.id = String.mk "3catpng".data.dropLast ∧
    (('.') ∉ "3catpng".data → parse_label "3catpng" = String.mk "3catpng".data.dropLast) :=
  degenerate_filename_still_processed fsNoDash (some Device.cpu) "d" modelX pcaX id
    mappingY gs0 "3catpng" docY 2 gsX (by decide) rfl

/-- Claim C10 (amended): `create_docs` reads the free name `device`, bound only
in the main block; every call without that binding that passes the precondition
checks and whose directory listing starts with a readable image file fails with
a NameError for `device`, raised at the first predict call before any document
is produced. -/
theorem create_docs_unbound_device_nameError (fs : FileSystem) (st : GlobalState)
    (dir : String) (m : Model) (p : PCA) (t : Transform) (mp : List (String × Nat))
    (f : String) (rest : List String) (img : PyImage)
    (hdir : fs.isDir dir = true)
    (hls : fs.listdir dir = f :: rest)
    (himg : fs.readImage (os_join dir f) = some img) :
    create_docs fs none st dir (some m) (some p) t mp =
      Except.error (PyError.nameError "device") := by
  rw [create_docs_eq_loop hdir, hls]
  unfold docs_loop process_file
  rw [himg]

/-- Claim C10 witness: with the device name unbound and one readable listed
image, `create_docs` raises the NameError at concrete arguments. -/
theorem create_docs_unbound_device_nameError_witness :
    create_docs fsOne none gs0 "d" (some modelX) (some pcaX) id mappingX =
      Except.error (PyError.nameError "device") :=
  create_docs_unbound_device_nameError fsOne gs0 "d" modelX pcaX id mappingX
    "3-cat.png" [] 0 rfl rfl rfl

/-- Claim C10 counterexample: with the device name unbound, a call on a valid but
empty directory returns successfully instead of failing with a NameError, so not
every unbound-device call fails that way. -/
theorem create_docs_unbound_device_cex :
    create_docs fsEmptyDir none gs0 "d" (some modelX) (some pcaX) id mappingX =
      Except.ok (some [], 0, gs0) ∧
    isNameError (create_docs fsEmptyDir none gs0 "d" (some modelX) (some pcaX) id mappingX)
      = false :=
  ⟨rfl, rfl⟩
